import Mathlib

/-!
Verification of the flamme exploratory-data-analysis toolkit.

Shallow embedding of the analyzer/section pipeline of the `flamme`
repository.  Columns of the input table are modelled as lists of
`Option ℚ`, where `none` stands for a null entry (NaN in the source,
which stores every column as a float array for the statistics paths).
Float rounding is abstracted: all arithmetic is exact; values that the
source computes through a real square root are modelled in `ℝ`.
Fallible constructors (which raise in Python) return `Except String`.
-/

namespace Flamme

/-- Model of one cell of a column: `none` is a null/NaN entry. -/
abbrev Value := Option ℚ

/-- Model of a column: an ordered sequence of nullable rational values. -/
abbrev Column := List Value

/-- Model of a pandas DataFrame: named columns in order. -/
abbrev DataFrame := List (String × Column)

/-- Column names of a DataFrame (`df.columns`). -/
def DataFrame.names (df : DataFrame) : List String := df.map (·.1)

/-- Column extraction (`df[name]`); the first column with that name. -/
def DataFrame.col (df : DataFrame) (name : String) : Column :=
  (df.lookup name).getD []

/-- Non-null entries of a column, in order (`series.dropna()`). -/
def nonNull (data : Column) : List ℚ := data.filterMap id

/-- Distinct elements of a list in first-encounter order.  This is the
key order produced by the hash-table based grouping of
`Series.value_counts` and by `dict`/`Counter` insertion. -/
def distinctFirst {α : Type} [BEq α] : List α → List α
  | [] => []
  | a :: l => a :: distinctFirst (l.filter (fun b => !(b == a)))
termination_by l => l.length
decreasing_by
  simpa using Nat.lt_succ_of_le (List.length_filter_le _ _)

/-- Stable descending sort by count: the order of `Counter.most_common`
and of `Series.value_counts(sort=True)` (ties keep first-encounter
order, as pinned down by the unit tests of the repository). -/
def sortByCountDesc (l : List (Value × ℕ)) : List (Value × ℕ) :=
  List.insertionSort (fun p q => q.2 ≤ p.2) l

/-- Frequency table of a column (`Series.value_counts(dropna=...)`,
converted to a `Counter`): pairs (value, count) sorted by descending
count, ties in first-encounter order; with `dropna = false` the null
entries form their own bucket keyed by `none`. -/
def valueCounts (data : Column) (dropna : Bool) : List (Value × ℕ) :=
  let vals : List Value := if dropna then (nonNull data).map some else data
  sortByCountDesc ((distinctFirst vals).map (fun k => (k, vals.count k)))

/-- Model of `Counter.most_common(n)`: the frequency pairs sorted by
descending count (stably), truncated to the first `n` entries; a
negative `n` yields the empty list (as `heapq.nlargest` does). -/
def counterMostCommonTop (counter : List (Value × ℕ)) (top : ℤ) : List (Value × ℕ) :=
  if top < 0 then [] else (sortByCountDesc counter).take top.toNat

/-- Model of `Counter.most_common()` without an argument. -/
def counterMostCommon (counter : List (Value × ℕ)) : List (Value × ℕ) :=
  sortByCountDesc counter

/-- Ascending sort of rational values (the order statistics used by the
quantile computations). -/
def sortQ (l : List ℚ) : List ℚ := List.insertionSort (fun a b => a ≤ b) l

/-- Quantile by linear interpolation between order statistics (the
default method of `np.quantile` / `Series.quantile`): with `m` sorted
values, the quantile at probability `q` sits at fractional index
`q * (m - 1)`.  Only meaningful for a non-empty list and `0 ≤ q ≤ 1`. -/
def quantileLin (l : List ℚ) (q : ℚ) : ℚ :=
  let s := sortQ l
  let m := s.length
  let h : ℚ := q * ((m : ℚ) - 1)
  let i : ℕ := (⌊h⌋).toNat
  let j : ℕ := Nat.min (i + 1) (m - 1)
  s.getD i 0 + (h - (⌊h⌋ : ℚ)) * (s.getD j 0 - s.getD i 0)

/-- Statistics bundle returned by `flamme.section.utils.compute_statistics`.
Counts are naturals; every other entry is `none` when the source yields
NaN.  `std` and `skewness` involve a real square root and live in `ℝ`. -/
structure Statistics where
  count : ℕ
  num_nulls : ℕ
  nunique : ℕ
  mean : Option ℚ
  std : Option ℝ
  skewness : Option ℝ
  kurtosis : Option ℚ
  min : Option ℚ
  q001 : Option ℚ
  q01 : Option ℚ
  q05 : Option ℚ
  q10 : Option ℚ
  q25 : Option ℚ
  median : Option ℚ
  q75 : Option ℚ
  q90 : Option ℚ
  q95 : Option ℚ
  q99 : Option ℚ
  q999 : Option ℚ
  max : Option ℚ
  num_non_nulls : ℕ

/-- Embedding of `flamme.section.utils.compute_statistics`: null-aware
descriptive statistics of a column.  All statistics start as NaN and are
filled from the non-null sample only when it is non-empty; `skewness`
and `kurtosis` (scipy, biased, NaN-omitting, Fisher definition) are
additionally filled only when `nunique > 1`, and collapse to NaN on a
constant sample (`m2 = 0`); `std` is the sample deviation with
`ddof = 1`, hence NaN for a single observation. -/
noncomputable def compute_statistics (data : Column) : Statistics :=
  let num_nulls := data.countP (fun x => x.isNone)
  let nuniq := (distinctFirst data).length
  let ns := nonNull data
  let n := ns.length
  let μ : ℚ := ns.sum / (n : ℚ)
  let m2 : ℚ := (ns.map (fun x => (x - μ) ^ 2)).sum / (n : ℚ)
  let m3 : ℚ := (ns.map (fun x => (x - μ) ^ 3)).sum / (n : ℚ)
  let m4 : ℚ := (ns.map (fun x => (x - μ) ^ 4)).sum / (n : ℚ)
  { count := data.length
    num_nulls := num_nulls
    nunique := nuniq
    num_non_nulls := data.length - num_nulls
    mean := if n = 0 then none else some μ
    std := if n = 0 then none else if n = 1 then none
      else some (Real.sqrt (((ns.map (fun x => (x - μ) ^ 2)).sum / ((n : ℚ) - 1) : ℚ) : ℝ))
    skewness := if n = 0 then none else if nuniq ≤ 1 then none
      else if m2 = 0 then none else some ((m3 : ℝ) / Real.sqrt ((m2 : ℝ) ^ 3))
    kurtosis := if n = 0 then none else if nuniq ≤ 1 then none
      else if m2 = 0 then none else some (m4 / m2 ^ 2 - 3)
    min := if n = 0 then none else ns.min?
    q001 := if n = 0 then none else some (quantileLin ns (1 / 1000))
    q01 := if n = 0 then none else some (quantileLin ns (1 / 100))
    q05 := if n = 0 then none else some (quantileLin ns (1 / 20))
    q10 := if n = 0 then none else some (quantileLin ns (1 / 10))
    q25 := if n = 0 then none else some (quantileLin ns (1 / 4))
    median := if n = 0 then none else some (quantileLin ns (1 / 2))
    q75 := if n = 0 then none else some (quantileLin ns (3 / 4))
    q90 := if n = 0 then none else some (quantileLin ns (9 / 10))
    q95 := if n = 0 then none else some (quantileLin ns (19 / 20))
    q99 := if n = 0 then none else some (quantileLin ns (99 / 100))
    q999 := if n = 0 then none else some (quantileLin ns (999 / 1000))
    max := if n = 0 then none else ns.max? }

/-- Statistics bundle returned by `flamme.utils.stats.compute_statistics_continuous`.
The sign counts model the `>0`, `<0`, `=0` entries. -/
structure ContinuousStatistics where
  mean : Option ℚ
  std : Option ℝ
  skewness : Option ℝ
  kurtosis : Option ℚ
  min : Option ℚ
  q001 : Option ℚ
  q01 : Option ℚ
  q05 : Option ℚ
  q10 : Option ℚ
  q25 : Option ℚ
  median : Option ℚ
  q75 : Option ℚ
  q90 : Option ℚ
  q95 : Option ℚ
  q99 : Option ℚ
  q999 : Option ℚ
  max : Option ℚ
  gt0 : ℕ
  lt0 : ℕ
  eq0 : ℕ

/-- Embedding of `flamme.utils.stats.compute_statistics_continuous`:
NaN-propagating numpy statistics over a raw array (`none` entries model
NaN cells, which poison every statistic but not the sign counts; an
empty array yields NaN everywhere and zero sign counts).  `std` is the
population deviation (`np.std`, `ddof = 0`); `skewness`/`kurtosis` are
the biased scipy moments, NaN on a constant array. -/
noncomputable def compute_statistics_continuous (data : Column) : ContinuousStatistics :=
  let n := data.length
  let bad := n = 0 ∨ data.any (fun x => x.isNone)
  let ns := nonNull data
  let μ : ℚ := ns.sum / (n : ℚ)
  let m2 : ℚ := (ns.map (fun x => (x - μ) ^ 2)).sum / (n : ℚ)
  let m3 : ℚ := (ns.map (fun x => (x - μ) ^ 3)).sum / (n : ℚ)
  let m4 : ℚ := (ns.map (fun x => (x - μ) ^ 4)).sum / (n : ℚ)
  { mean := if bad then none else some μ
    std := if bad then none else some (Real.sqrt (m2 : ℝ))
    skewness := if bad then none
      else if m2 = 0 then none else some ((m3 : ℝ) / Real.sqrt ((m2 : ℝ) ^ 3))
    kurtosis := if bad then none
      else if m2 = 0 then none else some (m4 / m2 ^ 2 - 3)
    min := if bad then none else ns.min?
    q001 := if bad then none else some (quantileLin ns (1 / 1000))
    q01 := if bad then none else some (quantileLin ns (1 / 100))
    q05 := if bad then none else some (quantileLin ns (1 / 20))
    q10 := if bad then none else some (quantileLin ns (1 / 10))
    q25 := if bad then none else some (quantileLin ns (1 / 4))
    median := if bad then none else some (quantileLin ns (1 / 2))
    q75 := if bad then none else some (quantileLin ns (3 / 4))
    q90 := if bad then none else some (quantileLin ns (9 / 10))
    q95 := if bad then none else some (quantileLin ns (19 / 20))
    q99 := if bad then none else some (quantileLin ns (99 / 100))
    q999 := if bad then none else some (quantileLin ns (999 / 1000))
    max := if bad then none else ns.max?
    gt0 := data.countP (fun x => match x with | some v => decide (0 < v) | none => false)
    lt0 := data.countP (fun x => match x with | some v => decide (v < 0) | none => false)
    eq0 := data.countP (fun x => match x with | some v => decide (v = 0) | none => false) }

/-- Embedding of `flamme.utils.stats.quantile`: an empty array yields
NaN for every requested probability; otherwise `np.quantile` is applied
(NaN-propagating when the array holds NaN entries). -/
def quantile (array : Column) (q : List ℚ) : List (ℚ × Option ℚ) :=
  if array.length = 0 then q.map (fun p => (p, none))
  else q.map (fun p =>
    (p, if array.any (fun x => x.isNone) then none
        else some (quantileLin (nonNull array) p)))

/-- Embedding of `flamme.section.utils.tags2id`: join the tags with
dashes, replace spaces by dashes, lowercase. -/
def tags2id (tags : List String) : String :=
  ((String.intercalate "-" tags).replace " " "-").toLower

/-- Embedding of `flamme.section.utils.tags2title`: reverse-join with
a pipe separator. -/
def tags2title (tags : List String) : String :=
  String.intercalate " | " tags.reverse

/-- Embedding of `flamme.section.utils.valid_h_tag`: clamp a heading
level into the valid range [1, 6]. -/
def valid_h_tag (index : ℤ) : ℤ := Max.max 1 (Min.min 6 index)

/-- Embedding of `flamme.section.utils.render_html_toc`: empty once
`depth >= max_depth`, otherwise one list item linking to the anchor id
derived from the tags (the last tag is the display name). -/
def render_html_toc (number : String) (tags : List String)
    (depth : ℤ) (max_depth : ℤ) : String :=
  if depth ≥ max_depth then ""
  else "<li><a href=\"#" ++ tags2id tags ++ "\">" ++ number ++ " "
        ++ (tags.getLast?.getD "") ++ "</a></li>"

/-- Modelled from the spec: `flamme.utils.array.nonnan` is not part of
the sources (only its import site is); the spec states that the auto
y-scale policy first drops the NaN values of the array. -/
def nonnan (array : Column) : List ℚ := array.filterMap id

/-- Bin index of a value in a histogram with `nbins` equal-width bins
over `[lo, hi]`; the last bin is right-closed (`np.histogram`). -/
def binIndex (lo hi : ℚ) (nbins : ℕ) (v : ℚ) : ℕ :=
  Nat.min (Int.toNat ⌊(v - lo) * (nbins : ℚ) / (hi - lo)⌋) (nbins - 1)

/-- Bin counts of `np.histogram(vs, bins=nbins)`: `nbins` equal-width
bins spanning the data range, widened to `(v - 1/2, v + 1/2)` when all
values coincide (numpy's degenerate-range rule). -/
def histogramCounts (vs : List ℚ) (nbins : ℕ) : List ℕ :=
  let lo0 := (vs.min?).getD 0
  let hi0 := (vs.max?).getD 1
  let lo := if lo0 = hi0 then lo0 - 1 / 2 else lo0
  let hi := if lo0 = hi0 then hi0 + 1 / 2 else hi0
  (List.range nbins).map (fun i => vs.countP (fun v => binIndex lo hi nbins v = i))

/-- Embedding of `flamme.section.utils.auto_yscale_continuous`: drop
the NaN values, build a histogram with the configured number of bins
(default 100), and choose the scale from the non-zero bin counts; a bin
count of zero is a `ValueError` inside `np.histogram`. -/
def auto_yscale_continuous (array : Column) (nbins : Option ℕ) : Except String String :=
  let nb := nbins.getD 100
  if nb = 0 then .error "bins must be positive, when an integer"
  else
    let vs := nonnan array
    let counts := histogramCounts vs nb
    let nonzero_count := counts.filter (fun c => 0 < c)
    if nonzero_count.length ≤ 2 ∨
        ((nonzero_count.max?.getD 0 : ℚ) / ((Nat.max (nonzero_count.min?.getD 0) 1 : ℕ) : ℚ) < 50)
      then .ok "linear"
    else if (vs.min?.getD 0) ≤ 0 then .ok "symlog"
    else .ok "log"

/-- One value of a statistics mapping returned by `get_statistics`
(the shapes that the embedded sections produce). -/
inductive StatValue where
  | nat (n : ℕ)
  | counts (l : List (Value × ℕ))
  | strs (l : List String)
  | ints (l : List ℤ)
deriving DecidableEq

/-- A statistics mapping: ordered string-keyed entries (a Python dict). -/
abbrev StatBundle := List (String × StatValue)

/-- The Section variants needed by the claims.  `empty` is the
`EmptySection` sentinel.  Each other constructor captures exactly the
state its Python `__init__` stores. -/
inductive Section where
  | empty
  | mostFrequentValues (counter : List (Value × ℕ)) (column : String) (top : ℤ)
  | columnDiscrete (counter : List (Value × ℕ)) (null_values : ℕ) (column : String)
      (max_rows : ℤ) (yscale : String) (figsize : Option (ℚ × ℚ))
  | temporalNullValue (df : DataFrame) (dt_column : String) (period : String)
      (ncols : ℤ) (figsize : ℤ × ℤ)
  | nullValue (columns : List String) (null_count : List ℤ) (total_count : List ℤ)
      (figsize : Option (ℚ × ℚ))
deriving DecidableEq

/-- Statistics of each section.  The `empty` branch is modelled from the
spec: `EmptySection` is not under the sources (only its import sites and
tests are); the spec and the unit tests fix `get_statistics()` to the
empty mapping.  The other branches embed the `get_statistics` methods of
`MostFrequentValuesSection`, `ColumnDiscreteSection`,
`TemporalNullValueSection` (which returns `{}`) and `NullValueSection`. -/
def Section.get_statistics : Section → StatBundle
  | .empty => []
  | .mostFrequentValues counter _ top =>
      [("most_common", .counts (counterMostCommonTop counter top))]
  | .columnDiscrete counter _ _ _ _ _ =>
      let most_common := (counterMostCommon counter).filter (fun p => 0 < p.2)
      [("most_common", .counts most_common),
       ("nunique", .nat most_common.length),
       ("total", .nat ((counter.map (·.2)).sum))]
  | .temporalNullValue _ _ _ _ _ => []
  | .nullValue columns null_count total_count _ =>
      [("columns", .strs columns),
       ("null_count", .ints null_count),
       ("total_count", .ints total_count)]

/-- TOC rendering of each section: every embedded section delegates to
`render_html_toc`; the `empty` branch is modelled from the spec
(`EmptySection` renders nothing). -/
def Section.render_toc (s : Section) (number : String) (tags : List String)
    (depth : ℤ) (max_depth : ℤ) : String :=
  match s with
  | .empty => ""
  | _ => render_html_toc number tags depth max_depth

/-- Embedding of `MostFrequentValuesAnalyzer` (its captured
configuration). -/
structure MostFrequentValuesAnalyzer where
  column : String
  dropna : Bool
  top : ℤ
deriving DecidableEq

/-- Embedding of `MostFrequentValuesAnalyzer.__init__`: it stores the
configuration without validating anything, so it never raises. -/
def MostFrequentValuesAnalyzer.init (column : String) (dropna : Bool) (top : ℤ) :
    Except String MostFrequentValuesAnalyzer :=
  .ok ⟨column, dropna, top⟩

/-- Embedding of `MostFrequentValuesAnalyzer.analyze`: an `EmptySection`
when the target column is absent, otherwise a section holding the
frequency table of the column. -/
def MostFrequentValuesAnalyzer.analyze (a : MostFrequentValuesAnalyzer)
    (df : DataFrame) : Section :=
  if a.column ∉ df.names then .empty
  else .mostFrequentValues (valueCounts (df.col a.column) a.dropna) a.column a.top

/-- Embedding of `ColumnDiscreteAnalyzer` (its captured configuration). -/
structure ColumnDiscreteAnalyzer where
  column : String
  dropna : Bool
  max_rows : ℤ
  yscale : String
  figsize : Option (ℚ × ℚ)
deriving DecidableEq

/-- Embedding of `ColumnDiscreteAnalyzer.analyze`. -/
def ColumnDiscreteAnalyzer.analyze (a : ColumnDiscreteAnalyzer) (df : DataFrame) :
    Section :=
  if a.column ∉ df.names then .empty
  else .columnDiscrete (valueCounts (df.col a.column) a.dropna)
    ((df.col a.column).countP (fun x => x.isNone)) a.column a.max_rows a.yscale a.figsize

/-- Embedding of `TemporalNullValueAnalyzer` (its captured
configuration). -/
structure TemporalNullValueAnalyzer where
  dt_column : String
  period : String
  ncols : ℤ
  figsize : ℤ × ℤ
deriving DecidableEq

/-- Embedding of `TemporalNullValueAnalyzer.analyze`: an `EmptySection`
when the datetime column is absent. -/
def TemporalNullValueAnalyzer.analyze (a : TemporalNullValueAnalyzer)
    (df : DataFrame) : Section :=
  if a.dt_column ∉ df.names then .empty
  else .temporalNullValue df a.dt_column a.period a.ncols a.figsize

/-- Embedding of `NullValueSection.__init__`: the three parallel arrays
must have the same length, otherwise a `RuntimeError` is raised (the
`null_count` check first, then the `total_count` check) and no section
is produced. -/
def NullValueSection.init (columns : List String) (null_count : List ℤ)
    (total_count : List ℤ) (figsize : Option (ℚ × ℚ)) : Except String Section :=
  if columns.length ≠ null_count.length then
    .error ("columns (" ++ toString columns.length ++ ") and null_count ("
      ++ toString null_count.length ++ ") do not match")
  else if columns.length ≠ total_count.length then
    .error ("columns (" ++ toString columns.length ++ ") and total_count ("
      ++ toString total_count.length ++ ") do not match")
  else .ok (.nullValue columns null_count total_count figsize)

/-- Embedding of `DataFrameSummaryAnalyzer` (its captured
configuration). -/
structure DataFrameSummaryAnalyzer where
  top : ℤ
  sortCols : Bool
deriving DecidableEq

/-- Embedding of `DataFrameSummaryAnalyzer.__init__`: a negative `top`
raises a `ValueError` at construction time. -/
def DataFrameSummaryAnalyzer.init (top : ℤ) (sortCols : Bool) :
    Except String DataFrameSummaryAnalyzer :=
  if top < 0 then
    .error ("Incorrect top value (" ++ toString top ++ "). top must be positive")
  else .ok ⟨top, sortCols⟩

/-- Update of a string-keyed association list as a Python dict
assignment: replace the value at the first matching key keeping its
position, or append a fresh entry. -/
def assocSet {α : Type} : List (String × α) → String → α → List (String × α)
  | [], name, a => [(name, a)]
  | p :: l, name, a =>
      if p.1 = name then (name, a) :: l else p :: assocSet l name a

/-- Modelled from the spec: `MappingAnalyzer` (flamme/analyzer/mapping.py
is not under the sources; only its unit tests are).  It owns an ordered
name-to-analyzer mapping. -/
structure MappingAnalyzer (α : Type) where
  analyzers : List (String × α)

/-- Modelled from the spec: `MappingAnalyzer.add_analyzer` registers a
child under a name; a duplicate name without `replace_ok` raises a
`KeyError` (leaving the mapping untouched), with `replace_ok = true` the
entry is silently overwritten. -/
def MappingAnalyzer.add_analyzer {α : Type} (m : MappingAnalyzer α)
    (name : String) (analyzer : α) (replace_ok : Bool) :
    Except String (MappingAnalyzer α) :=
  if (m.analyzers.any (fun p => p.1 = name)) ∧ replace_ok = false then
    .error ("`" ++ name ++ "` is already used to register an analyzer.")
  else .ok ⟨assocSet m.analyzers name analyzer⟩

/-- Lookup of a named child analyzer (`self._analyzers[name]`). -/
def MappingAnalyzer.find {α : Type} (m : MappingAnalyzer α) (name : String) :
    Option α :=
  m.analyzers.lookup name

/-- Every element of `distinctFirst l` comes from `l`. -/
theorem mem_of_mem_distinctFirst {α : Type} [BEq α] {b : α} :
    ∀ (l : List α), b ∈ distinctFirst l → b ∈ l
  | [], h => by simp [distinctFirst] at h
  | a :: t, h => by
    rw [distinctFirst] at h
    rcases List.mem_cons.mp h with h1 | h2
    · exact h1 ▸ List.mem_cons_self a t
    · exact List.mem_cons_of_mem _
        (List.mem_of_mem_filter
          (mem_of_mem_distinctFirst (t.filter (fun b => !(b == a))) h2))
termination_by l => l.length
decreasing_by
  simpa using Nat.lt_succ_of_le (List.length_filter_le _ _)

/-- Summing the multiplicity of each distinct element recovers the
length of the list. -/
theorem sum_map_count_distinctFirst {α : Type} [BEq α] [LawfulBEq α] :
    ∀ (l : List α), ((distinctFirst l).map (fun k => l.count k)).sum = l.length
  | [] => by simp [distinctFirst]
  | a :: t => by
    have ih := sum_map_count_distinctFirst (t.filter (fun b => !(b == a)))
    rw [distinctFirst, List.map_cons, List.sum_cons]
    have hmap : (distinctFirst (t.filter (fun b => !(b == a)))).map
          (fun k => (a :: t).count k)
        = (distinctFirst (t.filter (fun b => !(b == a)))).map
            (fun k => (t.filter (fun b => !(b == a))).count k) := by
      apply List.map_congr_left
      intro k hk
      have hkf := mem_of_mem_distinctFirst _ hk
      have hka : k ≠ a := by
        have := List.of_mem_filter hkf
        simpa using this
      rw [List.count_cons_of_ne hka, List.count_filter (by simpa using hka)]
    rw [hmap, ih, List.count_cons_self]
    have hsplit : t.count a + (t.filter (fun b => !(b == a))).length = t.length := by
      have h1 : t.count a = t.countP (fun b => b == a) := rfl
      have h2 : (t.filter (fun b => !(b == a))).length
          = t.countP (fun b => decide ¬((fun b => b == a) b = true)) := by
        rw [← List.countP_eq_length_filter]
        apply List.countP_congr
        intro b _
        simp
      rw [h1, h2, ← List.length_eq_countP_add_countP (fun b => b == a) t]
    simp only [List.length_cons]
    omega
termination_by l => l.length
decreasing_by
  simpa using Nat.lt_succ_of_le (List.length_filter_le _ _)

/-- Conservation: the counts of a frequency table sum to the number of
counted entries. -/
theorem sum_counts_valueCounts (data : Column) (dropna : Bool) :
    ((valueCounts data dropna).map (·.2)).sum
      = if dropna then (nonNull data).length else data.length := by
  unfold valueCounts sortByCountDesc
  cases dropna
  · simp only [Bool.false_eq_true, if_false]
    rw [List.Perm.sum_eq (List.Perm.map _ (List.perm_insertionSort _ _)), List.map_map]
    simpa [Function.comp_def] using sum_map_count_distinctFirst data
  · simp only [if_true]
    rw [List.Perm.sum_eq (List.Perm.map _ (List.perm_insertionSort _ _)), List.map_map]
    simpa [Function.comp_def] using sum_map_count_distinctFirst ((nonNull data).map some)

/-- Lookup after a dict-style update finds the new value. -/
theorem lookup_assocSet {α : Type} :
    ∀ (l : List (String × α)) (name : String) (a : α),
      (assocSet l name a).lookup name = some a
  | [], name, a => by simp [assocSet, List.lookup]
  | p :: l, name, a => by
    by_cases h : p.1 = name
    · simp [assocSet, h, List.lookup]
    · simp only [assocSet, h, if_false]
      rw [List.lookup]
      have hne : (name == p.1) = false := by
        simp [Ne.symm h]
      rw [hne]
      exact lookup_assocSet l name a

/-- C1: for the leaf analyzers requiring a column (most-frequent-values,
discrete distribution) or a datetime column (temporal null values),
`analyze` on a table lacking that column raises nothing and returns an
`EmptySection` whose statistics are the empty mapping, whatever else the
table holds. -/
theorem C1_missing_column_yields_empty_section
    (df : DataFrame) (name : String) (dropna dropna2 : Bool) (top max_rows : ℤ)
    (yscale : String) (figsize : Option (ℚ × ℚ)) (period : String)
    (ncols : ℤ) (figsize2 : ℤ × ℤ)
    (h : name ∉ df.names) :
    (MostFrequentValuesAnalyzer.analyze ⟨name, dropna, top⟩ df = .empty
      ∧ (MostFrequentValuesAnalyzer.analyze ⟨name, dropna, top⟩ df).get_statistics = [])
    ∧ (ColumnDiscreteAnalyzer.analyze ⟨name, dropna2, max_rows, yscale, figsize⟩ df
          = .empty
      ∧ (ColumnDiscreteAnalyzer.analyze ⟨name, dropna2, max_rows, yscale, figsize⟩
          df).get_statistics = [])
    ∧ (TemporalNullValueAnalyzer.analyze ⟨name, period, ncols, figsize2⟩ df = .empty
      ∧ (TemporalNullValueAnalyzer.analyze ⟨name, period, ncols, figsize2⟩
          df).get_statistics = []) := by
  simp [MostFrequentValuesAnalyzer.analyze, ColumnDiscreteAnalyzer.analyze,
        TemporalNullValueAnalyzer.analyze, Section.get_statistics, h]

/-- Witness for C1 at a concrete table that has a column, but not the
requested one. -/
theorem C1_missing_column_yields_empty_section_witness :
    "b" ∉ (DataFrame.names [("a", [some (1:ℚ)])])
    ∧ MostFrequentValuesAnalyzer.analyze ⟨"b", false, 100⟩ [("a", [some (1:ℚ)])]
        = .empty := by
  refine ⟨by decide, ?_⟩
  exact (C1_missing_column_yields_empty_section [("a", [some (1:ℚ)])] "b" false false
    100 20 "auto" none "M" 2 (700, 300) (by decide)).1.1

/-- C3 counterexample: `MostFrequentValuesAnalyzer.__init__` accepts a
negative `top` without raising (construction succeeds), contradicting
the claim that every top-N analyzer raises at construction time. -/
theorem C3_counterexample_most_frequent_accepts_negative_top :
    MostFrequentValuesAnalyzer.init "col" false (-1)
      = .ok ⟨"col", false, -1⟩ := rfl

/-- C3 (amended): `DataFrameSummaryAnalyzer` raises at construction
exactly when `top < 0`; `MostFrequentValuesAnalyzer` performs no
validation and always constructs successfully. -/
theorem C3_negative_top_validation (top : ℤ) (sortCols : Bool)
    (column : String) (dropna : Bool) (t : ℤ) :
    ((∃ a, DataFrameSummaryAnalyzer.init top sortCols = .ok a) ↔ 0 ≤ top)
    ∧ (∃ a, MostFrequentValuesAnalyzer.init column dropna t = .ok a) := by
  constructor
  · constructor
    · rintro ⟨a, ha⟩
      by_contra hneg
      have htop : top < 0 := by omega
      simp [DataFrameSummaryAnalyzer.init, htop] at ha
    · intro hpos
      refine ⟨⟨top, sortCols⟩, ?_⟩
      simp [DataFrameSummaryAnalyzer.init, not_lt.mpr hpos]
  · exact ⟨⟨column, dropna, t⟩, rfl⟩

/-- C6: adding a child analyzer under an already-registered name without
`replace_ok` fails with the duplicate-key error (no updated mapping is
produced), while with `replace_ok = true` the call succeeds, the entry
is overwritten in place, and looking the name up returns the new child. -/
theorem C6_duplicate_registration_policy {α : Type} (m : MappingAnalyzer α)
    (name : String) (a : α)
    (hdup : m.analyzers.any (fun p => p.1 = name) = true) :
    m.add_analyzer name a false
        = .error ("`" ++ name ++ "` is already used to register an analyzer.")
    ∧ m.add_analyzer name a true = .ok ⟨assocSet m.analyzers name a⟩
    ∧ (MappingAnalyzer.find ⟨assocSet m.analyzers name a⟩ name) = some a := by
  refine ⟨?_, ?_, ?_⟩
  · simp [MappingAnalyzer.add_analyzer, hdup]
  · simp [MappingAnalyzer.add_analyzer]
  · exact lookup_assocSet m.analyzers name a

/-- Witness for C6 on a two-entry mapping with a duplicate name. -/
theorem C6_duplicate_registration_policy_witness :
    (MappingAnalyzer.mk [("section1", 0), ("section2", 1)]).analyzers.any
        (fun p => p.1 = "section2") = true
    ∧ (MappingAnalyzer.mk [("section1", 0), ("section2", (1 : ℕ))]).add_analyzer
        "section2" 2 false
        = .error "`section2` is already used to register an analyzer." := by
  refine ⟨by decide, ?_⟩
  exact (C6_duplicate_registration_policy
    (MappingAnalyzer.mk [("section1", 0), ("section2", 1)]) "section2" 2 (by decide)).1

/-- C9: the counts of the frequency table built by the
most-frequent-values analyzer sum to the number of non-null entries of
the column under `dropna`, and to the total number of entries
otherwise. -/
theorem C9_frequency_table_conservation (df : DataFrame) (c : String)
    (dropna : Bool) (top : ℤ) (h : c ∈ df.names) :
    ∃ counter,
      MostFrequentValuesAnalyzer.analyze ⟨c, dropna, top⟩ df
          = .mostFrequentValues counter c top
      ∧ (counter.map (·.2)).sum
          = if dropna then (nonNull (df.col c)).length else (df.col c).length := by
  exact ⟨valueCounts (df.col c) dropna,
    by simp [MostFrequentValuesAnalyzer.analyze, h],
    sum_counts_valueCounts _ _⟩

/-- Witness for C9 on a concrete one-column table. -/
theorem C9_frequency_table_conservation_witness :
    "col" ∈ (DataFrame.names [("col", [some (1:ℚ), none, some 1])])
    ∧ ∃ counter,
        MostFrequentValuesAnalyzer.analyze ⟨"col", false, 100⟩
            [("col", [some (1:ℚ), none, some 1])]
          = .mostFrequentValues counter "col" 100
        ∧ (counter.map (·.2)).sum
            = if false
              then (nonNull (DataFrame.col
                [("col", [some (1:ℚ), none, some 1])] "col")).length
              else (DataFrame.col
                [("col", [some (1:ℚ), none, some 1])] "col").length := by
  refine ⟨by decide, ?_⟩
  exact C9_frequency_table_conservation
    [("col", [some (1:ℚ), none, some 1])] "col" false 100 (by decide)

/-- C10: constructing a `NullValueSection` succeeds exactly when the
three parallel arrays share one length (otherwise a `RuntimeError` and
no section); under the precondition, `get_statistics` returns the three
parallel tuples of that common length. -/
theorem C10_null_value_section_parallel_arrays (c : List String)
    (n t : List ℤ) (figsize : Option (ℚ × ℚ)) :
    ((∃ s, NullValueSection.init c n t figsize = .ok s)
        ↔ (c.length = n.length ∧ c.length = t.length))
    ∧ (c.length = n.length → c.length = t.length →
        NullValueSection.init c n t figsize = .ok (.nullValue c n t figsize)
        ∧ (Section.get_statistics (.nullValue c n t figsize))
            = [("columns", .strs c), ("null_count", .ints n),
               ("total_count", .ints t)]
        ∧ n.length = c.length ∧ t.length = c.length) := by
  constructor
  · constructor
    · rintro ⟨s, hs⟩
      by_contra hlen
      rw [not_and_or] at hlen
      rcases hlen with h1 | h2
      · simp [NullValueSection.init, h1] at hs
      · by_cases h1 : c.length = n.length
        · have h4 : n.length ≠ t.length := by omega
          simp [NullValueSection.init, h1, h4] at hs
        · simp [NullValueSection.init, h1] at hs
    · rintro ⟨h1, h2⟩
      have h3 : n.length = t.length := by omega
      exact ⟨.nullValue c n t figsize, by simp [NullValueSection.init, h1, h2, h3]⟩
  · intro h1 h2
    have h3 : n.length = t.length := by omega
    exact ⟨by simp [NullValueSection.init, h1, h2, h3], rfl, h1.symm, h2.symm⟩

/-- Witness for C10 on the table of the null-value end-to-end scenario. -/
theorem C10_null_value_section_parallel_arrays_witness :
    (["col"].length = [(1 : ℤ)].length ∧ ["col"].length = [(4 : ℤ)].length)
    ∧ NullValueSection.init ["col"] [1] [4] none
        = .ok (.nullValue ["col"] [1] [4] none) := by
  refine ⟨⟨by decide, by decide⟩, ?_⟩
  exact ((C10_null_value_section_parallel_arrays ["col"] [1] [4] none).2
    (by decide) (by decide)).1

/-- C5: `render_html_toc` returns the empty string exactly when
`depth ≥ max_depth`; below the cutoff it returns the single list-item
entry anchored at the id derived from the tags, and the section method
(here for the most-frequent-values section) delegates to it. -/
theorem C5_toc_depth_cutoff (number : String) (tags : List String) (d m : ℤ)
    (counter : List (Value × ℕ)) (column : String) (top : ℤ) :
    (render_html_toc number tags d m = "" ↔ m ≤ d)
    ∧ render_html_toc number tags d m
        = (if d < m then
            "<li><a href=\"#" ++ tags2id tags ++ "\">" ++ number ++ " "
              ++ (tags.getLast?.getD "") ++ "</a></li>"
           else "")
    ∧ Section.render_toc (.mostFrequentValues counter column top) number tags d m
        = render_html_toc number tags d m := by
  have hne : ("<li><a href=\"#" ++ tags2id tags ++ "\">" ++ number ++ " "
      ++ (tags.getLast?.getD "") ++ "</a></li>") ≠ "" := by
    intro hcontra
    have hlen := congrArg String.length hcontra
    simp only [String.length_append] at hlen
    have h1 : ("<li><a href=\"#" : String).length = 14 := by decide
    have h2 : ("</a></li>" : String).length = 9 := by decide
    have h3 : ("" : String).length = 0 := by decide
    omega
  refine ⟨?_, ?_, rfl⟩
  · unfold render_html_toc
    by_cases h : m ≤ d
    · rw [if_pos h]
      exact ⟨fun _ => h, fun _ => rfl⟩
    · rw [if_neg h]
      exact ⟨fun hc => absurd hc hne, fun hm => absurd hm h⟩
  · unfold render_html_toc
    by_cases h : m ≤ d
    · rw [if_pos h, if_neg (by omega)]
    · rw [if_neg h, if_pos (by omega)]

/-- C8: analyzing the table col = [1, 42, NaN, 22, 1, 2, 1, NaN] with the
most-frequent-values analyzer (no dropna) yields exactly the most-common
list [(1,3), (NaN,2), (42,1), (22,1), (2,1)]: NaN is its own bucket,
counts descend, ties keep first-encounter order. -/
theorem C8_most_frequent_end_to_end :
    (MostFrequentValuesAnalyzer.analyze ⟨"col", false, 100⟩
        [("col", [some 1, some 42, none, some 22, some 1, some 2, some 1,
          none])]).get_statistics
      = [("most_common",
          .counts [(some 1, 3), (none, 2), (some 42, 1), (some 22, 1),
            (some 2, 1)])] := by
  unfold MostFrequentValuesAnalyzer.analyze
  rw [if_neg (by decide)]
  simp only [Section.get_statistics, counterMostCommonTop, valueCounts,
    sortByCountDesc, DataFrame.col]
  norm_num [distinctFirst, List.insertionSort, List.orderedInsert,
    List.count_cons, List.lookup]
  decide

/-- C2 counterexample: with a bin count of zero the auto y-scale
function reaches the `ValueError` of `np.histogram` instead of
returning one of the three scales, so the claim does not hold for every
bin count. -/
theorem C2_counterexample_zero_bins :
    auto_yscale_continuous [some 1, some 2] (some 0)
      = .error "bins must be positive, when an integer" := rfl

/-- C2 (amended): for every array and every positive bin count the auto
y-scale function is pure and returns "linear" when there are at most two
non-zero bins or the largest non-zero bin count is below 50 times the
clamped smallest one, otherwise "symlog" when the data minimum is not
positive, and "log" when it is. -/
theorem C2_auto_yscale_rule (array : Column) (nbins : Option ℕ)
    (nb : ℕ) (vs : List ℚ) (nz : List ℕ)
    (hnb : nbins.getD 100 = nb) (h : nb ≠ 0)
    (hvs : vs = nonnan array)
    (hnz : nz = (histogramCounts vs nb).filter (fun c => 0 < c)) :
    auto_yscale_continuous array nbins = auto_yscale_continuous array nbins
    ∧ auto_yscale_continuous array nbins
        = .ok (if nz.length ≤ 2
                ∨ ((nz.max?.getD 0 : ℚ) < 50 * ((Nat.max (nz.min?.getD 0) 1 : ℕ) : ℚ))
              then "linear"
              else if vs.min?.getD 0 ≤ 0 then "symlog" else "log") := by
  refine ⟨rfl, ?_⟩
  subst hvs hnz
  simp only [auto_yscale_continuous]
  rw [hnb, if_neg h]
  set nzl := (histogramCounts (nonnan array) nb).filter (fun c => 0 < c) with hnzl
  have hb : (0 : ℚ) < ((Nat.max (nzl.min?.getD 0) 1 : ℕ) : ℚ) := by
    have h1 : 1 ≤ Nat.max (nzl.min?.getD 0) 1 := Nat.le_max_right _ _
    exact_mod_cast Nat.lt_of_lt_of_le Nat.zero_lt_one h1
  have hiff : ((nzl.max?.getD 0 : ℚ) / ((Nat.max (nzl.min?.getD 0) 1 : ℕ) : ℚ) < 50)
      ↔ ((nzl.max?.getD 0 : ℚ) < 50 * ((Nat.max (nzl.min?.getD 0) 1 : ℕ) : ℚ)) :=
    div_lt_iff₀ hb
  by_cases hc : nzl.length ≤ 2
      ∨ ((nzl.max?.getD 0 : ℚ) < 50 * ((Nat.max (nzl.min?.getD 0) 1 : ℕ) : ℚ))
  · rw [if_pos (hc.imp id hiff.mpr), if_pos hc]
  · rw [if_neg (fun hx => hc (hx.imp id hiff.mp)), if_neg hc]
    by_cases hm : (nonnan array).min?.getD 0 ≤ 0
    · rw [if_pos hm, if_pos hm]
    · rw [if_neg hm, if_neg hm]

/-- Witness for C2 at the default bin count on a small array. -/
theorem C2_auto_yscale_rule_witness :
    (Option.getD (none : Option ℕ) 100 = 100 ∧ (100 : ℕ) ≠ 0)
    ∧ ∃ s, auto_yscale_continuous [some 0, some 1, some 2] none = .ok s := by
  refine ⟨⟨rfl, by decide⟩, ?_⟩
  exact ⟨_, (C2_auto_yscale_rule [some 0, some 1, some 2] none 100
    (nonnan [some 0, some 1, some 2])
    ((histogramCounts (nonnan [some 0, some 1, some 2]) 100).filter (fun c => 0 < c))
    rfl (by decide) rfl rfl).2⟩

/-- Folding `min` over copies of the same value is the identity. -/
theorem foldl_min_replicate (v : ℚ) : ∀ (k : ℕ),
    List.foldl Min.min v (List.replicate k v) = v
  | 0 => rfl
  | k + 1 => by
    rw [List.replicate_succ, List.foldl_cons, min_self]
    exact foldl_min_replicate v k

/-- Folding `max` over copies of the same value is the identity. -/
theorem foldl_max_replicate (v : ℚ) : ∀ (k : ℕ),
    List.foldl Max.max v (List.replicate k v) = v
  | 0 => rfl
  | k + 1 => by
    rw [List.replicate_succ, List.foldl_cons, max_self]
    exact foldl_max_replicate v k

/-- Minimum of a non-empty constant list. -/
theorem min?_replicate (v : ℚ) (n : ℕ) (hn : 1 ≤ n) :
    (List.replicate n v).min? = some v := by
  cases n with
  | zero => omega
  | succ k =>
    rw [List.replicate_succ]
    show some (List.foldl Min.min v (List.replicate k v)) = some v
    rw [foldl_min_replicate]

/-- Maximum of a non-empty constant list. -/
theorem max?_replicate (v : ℚ) (n : ℕ) (hn : 1 ≤ n) :
    (List.replicate n v).max? = some v := by
  cases n with
  | zero => omega
  | succ k =>
    rw [List.replicate_succ]
    show some (List.foldl Max.max v (List.replicate k v)) = some v
    rw [foldl_max_replicate]

/-- Sorting a constant list leaves it unchanged. -/
theorem sortQ_replicate (v : ℚ) (n : ℕ) :
    sortQ (List.replicate n v) = List.replicate n v := by
  simp only [sortQ]
  have hperm := List.perm_insertionSort (fun a b : ℚ => a ≤ b) (List.replicate n v)
  rw [List.eq_replicate_iff]
  constructor
  · rw [hperm.length_eq, List.length_replicate]
  · intro b hb
    exact List.eq_of_mem_replicate (hperm.mem_iff.mp hb)

/-- Indexing a constant list below its length. -/
theorem getD_replicate_of_lt (v d : ℚ) {i n : ℕ} (h : i < n) :
    (List.replicate n v).getD i d = v := by
  rw [List.getD_eq_getElem?_getD, List.getElem?_replicate, if_pos h]
  rfl

/-- A linear-interpolation quantile of a constant sample is that value. -/
theorem quantileLin_replicate (v : ℚ) (n : ℕ) (q : ℚ) (hn : 1 ≤ n)
    (h0 : 0 ≤ q) (h1 : q ≤ 1) : quantileLin (List.replicate n v) q = v := by
  simp only [quantileLin]
  rw [sortQ_replicate, List.length_replicate]
  have hnn : (0 : ℚ) ≤ (n : ℚ) - 1 := by
    have : (1 : ℚ) ≤ (n : ℚ) := by exact_mod_cast hn
    linarith
  have hfl0 : (0 : ℤ) ≤ ⌊q * ((n : ℚ) - 1)⌋ :=
    Int.floor_nonneg.mpr (mul_nonneg h0 hnn)
  have hfle : ⌊q * ((n : ℚ) - 1)⌋ ≤ (n : ℤ) - 1 := by
    calc ⌊q * ((n : ℚ) - 1)⌋ ≤ ⌊(n : ℚ) - 1⌋ :=
          Int.floor_le_floor (by nlinarith)
      _ = (n : ℤ) - 1 := by
          rw [show ((n : ℚ) - 1) = (((n : ℤ) - 1 : ℤ) : ℚ) by push_cast; ring,
            Int.floor_intCast]
  have hi : (⌊q * ((n : ℚ) - 1)⌋).toNat < n := by omega
  have hj : Nat.min ((⌊q * ((n : ℚ) - 1)⌋).toNat + 1) (n - 1) < n :=
    Nat.lt_of_le_of_lt (Nat.min_le_right _ _) (by omega)
  rw [getD_replicate_of_lt _ _ hi, getD_replicate_of_lt _ _ hj]
  ring

/-- C4 counterexample: a single observation has sample standard
deviation NaN (ddof = 1), not 0, so the constant-column claim fails at
n = 1. -/
theorem C4_counterexample_single_observation_std :
    (compute_statistics [some 5]).std ≠ some 0 := by
  have hstd : (compute_statistics [some 5]).std = none := rfl
  rw [hstd]
  simp

/-- C4 (amended): for a column whose non-null values are one distinct
value repeated n ≥ 1 times, the bundle has
mean = median = min = max = that value, NaN skewness and kurtosis, and
std = 0 for n ≥ 2 while std is NaN for n = 1 (sample deviation with
ddof = 1 is undefined on one observation). -/
theorem C4_constant_column_statistics (data : Column) (v : ℚ) (n : ℕ)
    (hn : 1 ≤ n) (hconst : nonNull data = List.replicate n v) :
    (compute_statistics data).mean = some v
    ∧ (compute_statistics data).median = some v
    ∧ (compute_statistics data).min = some v
    ∧ (compute_statistics data).max = some v
    ∧ (compute_statistics data).skewness = none
    ∧ (compute_statistics data).kurtosis = none
    ∧ (compute_statistics data).std = (if n = 1 then none else some 0) := by
  have hn0 : n ≠ 0 := by omega
  have hnQ : ((n : ℕ) : ℚ) ≠ 0 := Nat.cast_ne_zero.mpr hn0
  have hself : ((n : ℚ) * v) / (n : ℚ) = v := mul_div_cancel_left₀ v hnQ
  have hvv : v - ((n : ℚ) * v) / (n : ℚ) = 0 := by rw [hself]; ring
  refine ⟨?_, ?_, ?_, ?_, ?_, ?_, ?_⟩
  · simp only [compute_statistics, hconst, List.length_replicate,
      List.sum_replicate, nsmul_eq_mul]
    rw [if_neg hn0, hself]
  · simp only [compute_statistics, hconst, List.length_replicate]
    rw [if_neg hn0, quantileLin_replicate v n _ hn (by norm_num) (by norm_num)]
  · simp only [compute_statistics, hconst, List.length_replicate]
    rw [if_neg hn0, min?_replicate v n hn]
  · simp only [compute_statistics, hconst, List.length_replicate]
    rw [if_neg hn0, max?_replicate v n hn]
  · simp only [compute_statistics, hconst, List.length_replicate,
      List.map_replicate, List.sum_replicate, nsmul_eq_mul]
    rw [if_neg hn0]
    by_cases hu : (distinctFirst data).length ≤ 1
    · rw [if_pos hu]
    · rw [if_neg hu, if_pos (by rw [hvv]; ring)]
  · simp only [compute_statistics, hconst, List.length_replicate,
      List.map_replicate, List.sum_replicate, nsmul_eq_mul]
    rw [if_neg hn0]
    by_cases hu : (distinctFirst data).length ≤ 1
    · rw [if_pos hu]
    · rw [if_neg hu, if_pos (by rw [hvv]; ring)]
  · simp only [compute_statistics, hconst, List.length_replicate,
      List.map_replicate, List.sum_replicate, nsmul_eq_mul]
    rw [if_neg hn0]
    by_cases h1 : n = 1
    · rw [if_pos h1, if_pos h1]
    · rw [if_neg h1, if_neg h1, hvv]
      norm_num

/-- Witness for C4 on the constant two-element column [5, 5]. -/
theorem C4_constant_column_statistics_witness :
    (1 ≤ 2 ∧ nonNull [some 5, some 5] = List.replicate 2 5)
    ∧ (compute_statistics [some 5, some 5]).mean = some 5 := by
  refine ⟨⟨by decide, by decide⟩, ?_⟩
  exact (C4_constant_column_statistics [some 5, some 5] 5 2
    (by decide) (by decide)).1

/-- C7 counterexample: an all-null column has an empty non-null sample,
yet its `count`/`num_nulls` are not 0, so "0 for all counts" fails. -/
theorem C7_counterexample_all_null_counts :
    nonNull [none] = [] ∧ (compute_statistics [none]).num_nulls ≠ 0 := by
  refine ⟨rfl, ?_⟩
  have h1 : (compute_statistics [none]).num_nulls = 1 := rfl
  rw [h1]
  omega

/-- C7 (amended): whenever the non-null sample is empty, every
location, spread and quantile statistic of `compute_statistics`,
`compute_statistics_continuous` and `quantile` is NaN, and
`num_non_nulls` and the sign counts are 0; `count`, `num_nulls` and
`nunique` are additionally 0 exactly when the input itself is empty
(for an all-null input they count the null entries instead). -/
theorem C7_empty_sample_statistics (data : Column) (ps : List ℚ)
    (h : nonNull data = []) :
    ((compute_statistics data).mean = none
      ∧ (compute_statistics data).std = none
      ∧ (compute_statistics data).skewness = none
      ∧ (compute_statistics data).kurtosis = none
      ∧ (compute_statistics data).min = none
      ∧ (compute_statistics data).q001 = none
      ∧ (compute_statistics data).q01 = none
      ∧ (compute_statistics data).q05 = none
      ∧ (compute_statistics data).q10 = none
      ∧ (compute_statistics data).q25 = none
      ∧ (compute_statistics data).median = none
      ∧ (compute_statistics data).q75 = none
      ∧ (compute_statistics data).q90 = none
      ∧ (compute_statistics data).q95 = none
      ∧ (compute_statistics data).q99 = none
      ∧ (compute_statistics data).q999 = none
      ∧ (compute_statistics data).max = none
      ∧ (compute_statistics data).num_non_nulls = 0)
    ∧ (data = [] → (compute_statistics data).count = 0
        ∧ (compute_statistics data).num_nulls = 0
        ∧ (compute_statistics data).nunique = 0)
    ∧ ((compute_statistics_continuous data).mean = none
      ∧ (compute_statistics_continuous data).std = none
      ∧ (compute_statistics_continuous data).skewness = none
      ∧ (compute_statistics_continuous data).kurtosis = none
      ∧ (compute_statistics_continuous data).min = none
      ∧ (compute_statistics_continuous data).q001 = none
      ∧ (compute_statistics_continuous data).q01 = none
      ∧ (compute_statistics_continuous data).q05 = none
      ∧ (compute_statistics_continuous data).q10 = none
      ∧ (compute_statistics_continuous data).q25 = none
      ∧ (compute_statistics_continuous data).median = none
      ∧ (compute_statistics_continuous data).q75 = none
      ∧ (compute_statistics_continuous data).q90 = none
      ∧ (compute_statistics_continuous data).q95 = none
      ∧ (compute_statistics_continuous data).q99 = none
      ∧ (compute_statistics_continuous data).q999 = none
      ∧ (compute_statistics_continuous data).max = none
      ∧ (compute_statistics_continuous data).gt0 = 0
      ∧ (compute_statistics_continuous data).lt0 = 0
      ∧ (compute_statistics_continuous data).eq0 = 0)
    ∧ (∀ pr ∈ quantile data ps, pr.2 = none) := by
  have hall : ∀ x ∈ data, x = none := by
    intro x hx
    exact List.filterMap_eq_nil_iff.mp h x hx
  have hcnt : data.countP (fun x => x.isNone) = data.length :=
    List.countP_eq_length.mpr (by intro a ha; rw [hall a ha]; rfl)
  refine ⟨?_, ?_, ?_, ?_⟩
  · simp [compute_statistics, h, hcnt]
  · intro hdata
    subst hdata
    refine ⟨rfl, rfl, ?_⟩
    simp [compute_statistics, distinctFirst]
  · have hbad : data.length = 0 ∨ (data.any (fun x => x.isNone)) = true := by
      rcases data with _ | ⟨a, t⟩
      · exact Or.inl rfl
      · refine Or.inr ?_
        have ha := hall a (List.mem_cons_self a t)
        subst ha
        simp
    have hg : data.countP
        (fun x => match x with | some v => decide (0 < v) | none => false) = 0 :=
      List.countP_eq_zero.mpr (by intro a ha; rw [hall a ha]; simp)
    have hl : data.countP
        (fun x => match x with | some v => decide (v < 0) | none => false) = 0 :=
      List.countP_eq_zero.mpr (by intro a ha; rw [hall a ha]; simp)
    have he : data.countP
        (fun x => match x with | some v => decide (v = 0) | none => false) = 0 :=
      List.countP_eq_zero.mpr (by intro a ha; rw [hall a ha]; simp)
    simp [compute_statistics_continuous, hbad, hg, hl, he]
    have hmem : ¬data = [] → none ∈ data := by
      intro hne
      rcases data with _ | ⟨a, t⟩
      · exact absurd rfl hne
      · have ha := hall a (List.mem_cons_self a t)
        subst ha
        exact List.mem_cons_self _ _
    exact ⟨hmem, fun hne hnone _ => absurd (hmem hne) hnone,
      fun _ _ => h, hmem, fun _ _ => h⟩
  · intro pr hpr
    rcases data with _ | ⟨a, t⟩
    · simp only [quantile, List.length_nil, if_pos rfl] at hpr
      obtain ⟨p, _, rfl⟩ := List.mem_map.mp hpr
      rfl
    · have ha := hall a (List.mem_cons_self a t)
      subst ha
      have hany : ((none :: t).any (fun x => x.isNone)) = true := by simp
      have hne : ¬((none :: t : Column).length = 0) := by simp
      simp only [quantile, if_neg hne] at hpr
      obtain ⟨p, _, rfl⟩ := List.mem_map.mp hpr
      simp [hany]

/-- Witness for C7 on the all-null column [NaN]. -/
theorem C7_empty_sample_statistics_witness :
    nonNull [none] = []
    ∧ (compute_statistics [none]).mean = none
    ∧ (compute_statistics_continuous [none]).mean = none := by
  refine ⟨rfl, ?_, ?_⟩
  · exact (C7_empty_sample_statistics [none] [1 / 2] rfl).1.1
  · exact (C7_empty_sample_statistics [none] [1 / 2] rfl).2.2.1.1

end Flamme
